import Mathlib

/-!
Shallow embedding of `src/api.js` from `zsh-on-windows`, a linear
provisioning script: locate Git Bash, relaunch elevated if needed,
download a zsh archive over HTTPS, extract it, and copy its `bin` and
`share` subdirectories into Git Bash's `usr` directory.

Modelling conventions:
* The filesystem seen by `existsSync` is a predicate `String → Bool`.
* Windows `path.join` on two segments is concatenation with `"\\"`.
* The JS module computes `const __dirname = path.resolve()`, which with
  no arguments resolves to the process's current working directory; we
  thread that directory through as an explicit `cwd : String` argument.
* The HTTP layer is a single observed outcome: either a network-level
  error event, or a completed response with a status code and a body
  (the body bytes are what ends up streamed to the file).
* `fs.createWriteStream(downloadPath)` opens the file with the default
  `w` flag, which creates/truncates it; the model therefore never keeps
  the prior artifact content once `downloadZsh` runs.
* Directory trees mutated by `fsExtra.copy` are partial maps from
  relative paths (lists of path segments) to file contents.
-/

/-- Windows-style join of a directory and one relative component,
modelling `path.join(a, b)` as used in the script (no normalization is
needed for the arguments that actually occur). -/
def pathJoin (a b : String) : String := a ++ "\\" ++ b

/-- `path.join(__dirname, 'zsh.tar.gz')` — the fixed download artifact
path, relative to the process cwd captured at module load. -/
def downloadPath (cwd : String) : String := pathJoin cwd "zsh.tar.gz"

/-- `path.join(__dirname, 'zsh-extract')` — the fixed extraction
directory, relative to the process cwd captured at module load. -/
def extractPath (cwd : String) : String := pathJoin cwd "zsh-extract"

/-- The candidate Git Bash roots, from
`['C:\\Program Files\\Git', 'C:\\Program Files (x86)\\Git',
process.env['GIT_INSTALL_ROOT']].filter(Boolean)`.
`gitInstallRoot` is the environment variable (`none` = unset); JS
`filter(Boolean)` drops `undefined` and the empty string. -/
def gitBashPaths (gitInstallRoot : Option String) : List String :=
  ([some "C:\\Program Files\\Git", some "C:\\Program Files (x86)\\Git",
    gitInstallRoot].filterMap id).filter (fun s => s ≠ "")

/-- `existsSync(path.join(gitPath, 'git-bash.exe'))` for one candidate. -/
def hasMarker (fs : String → Bool) (root : String) : Bool :=
  fs (pathJoin root "git-bash.exe")

/-- The `for (const gitPath of gitBashPaths) { if (existsSync(...)) return gitPath } return null`
loop of `isGitBashInstalled`. -/
def findFirstMarked (fs : String → Bool) : List String → Option String
  | [] => none
  | p :: rest => if hasMarker fs p then some p else findFirstMarked fs rest

/-- `isGitBashInstalled()`: first candidate root whose marker file
exists, else `null`. -/
def isGitBashInstalled (fs : String → Bool) (gitInstallRoot : Option String) :
    Option String :=
  findFirstMarked fs (gitBashPaths gitInstallRoot)

/-- Outcome of the single `https.get` call in `downloadZsh`: either the
request's `error` event fires, or a response arrives with a status code
and a body that gets piped to the file. -/
inductive HttpOutcome where
  | networkError (msg : String)
  | response (status : Nat) (body : List Nat)
deriving DecidableEq

/-- The 1 MiB size threshold `1024 * 1024` from `downloadZsh`. -/
def sizeThreshold : Nat := 1024 * 1024

/-- `downloadZsh()`. Takes the process cwd, the artifact file's prior
content at `downloadPath cwd` (`none` = absent), and the HTTP outcome.
Returns the settled promise (`Except errMsg resolvedPath`) together with
the artifact file's content after the run (`none` = deleted/absent).

Faithful to the source:
* `createWriteStream` truncates the file at `downloadPath` before
  anything else, so the prior content never survives;
* status ≠ 200 → reject with the status-code message, file left (empty);
* status 200 → body streamed to file; size > 1 MiB → resolve with the
  download path, else reject with the too-small message, file left;
* network error → `fs.unlink` the file, then reject with the error. -/
def downloadZsh (cwd : String) (priorFile : Option (List Nat))
    (out : HttpOutcome) : Except String String × Option (List Nat) :=
  match out with
  | HttpOutcome.networkError msg => (Except.error msg, none)
  | HttpOutcome.response status body =>
    if status ≠ 200 then
      (Except.error ("Failed to download file. HTTP Status Code: " ++ toString status),
       some [])
    else if body.length > sizeThreshold then
      (Except.ok (downloadPath cwd), some body)
    else
      (Except.error "Downloaded file is too small, download may have failed.",
       some body)

/-- `unpackZsh(tarGzPath)`. `tarResult` is the outcome of the
`tar.x({ file: tarGzPath, cwd: extractPath })` library call (the mkdir of
the extraction directory is `recursive: true`, so it never fails on an
existing directory). Any extraction error is rethrown unchanged;
otherwise the fixed extraction path is returned — the `tarGzPath`
argument never influences the resolved value. -/
def unpackZsh (cwd : String) (tarGzPath : String)
    (tarResult : Except String Unit) : Except String String :=
  match tarResult with
  | Except.error e => Except.error e
  | Except.ok _ => Except.ok (extractPath cwd)

/-- A directory tree as a partial map from relative paths (segment
lists) to file contents. -/
abbrev FSTree := List String → Option String

/-- One `fsExtra.copy(path.join(zshPath, sub), path.join(gitUsrPath, sub),
{ overwrite: true })` step: grafts the source subtree `sub` onto
`usr/sub` in the destination, overwriting files that exist in the source
and keeping every other destination file. -/
def copySub (zsh : FSTree) (sub : String) (git : FSTree) : FSTree :=
  fun p =>
    match p with
    | a :: s :: q =>
      if a = "usr" ∧ s = sub then (zsh (sub :: q)).elim (git p) some
      else git p
    | _ => git p

/-- `installZsh(zshPath, gitBashPath)`: copy the `bin` folder, then the
`share` folder, into `usr` of the Git Bash root. `zsh` is the extracted
tree (relative to `zshPath`), `git` the Git Bash tree (relative to
`gitBashPath`); the result is the Git Bash tree afterwards. -/
def installZsh (zsh git : FSTree) : FSTree :=
  copySub zsh "share" (copySub zsh "bin" git)

/-- The relaunch command string built by `relaunchAsAdmin()`:
`powershell -Command "Start-Process 'node' -ArgumentList '<script> <args>' -Verb RunAs"`
with `<args>` = `process.argv.slice(2).join(' ')`. -/
def relaunchCmd (scriptPath : String) (args : List String) : String :=
  "powershell -Command \"Start-Process 'node' -ArgumentList '" ++
    scriptPath ++ " " ++ String.intercalate " " args ++ "' -Verb RunAs\""

/-- Observable steps of one run of `installZshOnWindows`, in order:
console lines, the elevation relaunch, and the invocation markers of the
three stage functions. -/
inductive Step where
  | log (msg : String)
  | relaunch (cmd : String)
  | download
  | unpack
  | install
deriving DecidableEq

/-- Everything `installZshOnWindows` reads from its environment. -/
structure RunInput where
  cwd : String
  isAdmin : Bool
  scriptPath : String
  args : List String
  fs : String → Bool
  gitInstallRoot : Option String
  artifactPrior : Option (List Nat)
  http : HttpOutcome
  tarResult : Except String Unit

/-- `installZshOnWindows()`: the orchestrator, as the sequence of
observable steps of one invocation paired with the artifact file content
at `downloadPath cwd` after the run. The stage functions `downloadZsh`,
`unpackZsh`, `installZsh` are marked by `Step.download`, `Step.unpack`,
`Step.install` at their call sites; neither the extractor (which writes
under `extractPath`) nor the installer (which writes under the Git Bash
root) touches the artifact path. -/
def installZshOnWindows (i : RunInput) : List Step × Option (List Nat) :=
  let s0 := [Step.log "Installing Zsh on Windows..."]
  if i.isAdmin = false then
    (s0 ++ [Step.log "Not running as admin. Attempting to relaunch as admin...",
            Step.relaunch (relaunchCmd i.scriptPath i.args)],
     i.artifactPrior)
  else
    match isGitBashInstalled i.fs i.gitInstallRoot with
    | none =>
      (s0 ++ [Step.log "Git Bash is not installed. Please install it first."],
       i.artifactPrior)
    | some gitBashPath =>
      let s1 := s0 ++ [Step.log ("Git Bash found at: " ++ gitBashPath), Step.download]
      match downloadZsh i.cwd i.artifactPrior i.http with
      | (Except.error msg, fileAfter) =>
        (s1 ++ [Step.log ("An error occurred: " ++ msg)], fileAfter)
      | (Except.ok zipPath, fileAfter) =>
        let s2 := s1 ++ [Step.log ("Downloaded Zsh to: " ++ zipPath), Step.unpack]
        match unpackZsh i.cwd zipPath i.tarResult with
        | Except.error msg =>
          (s2 ++ [Step.log ("An error occurred: " ++ msg)], fileAfter)
        | Except.ok zshPath =>
          (s2 ++ [Step.log ("Unpacked Zsh to: " ++ zshPath),
                  Step.install, Step.log "Zsh installed successfully."],
           fileAfter)

/-! ### Locator lemmas -/

theorem findFirstMarked_eq_some (fs : String → Bool) (l : List String) (r : String) :
    findFirstMarked fs l = some r ↔
      ∃ l1 l2, l = l1 ++ r :: l2 ∧ hasMarker fs r = true ∧
        ∀ p ∈ l1, hasMarker fs p = false := by
  induction l with
  | nil => simp [findFirstMarked]
  | cons a rest ih =>
    cases hm : hasMarker fs a with
    | true =>
      rw [findFirstMarked, if_pos hm]
      constructor
      · intro h
        injection h with h
        subst h
        exact ⟨[], rest, rfl, hm, by simp⟩
      · rintro ⟨l1, l2, heq, hr, hl1⟩
        cases l1 with
        | nil =>
          injection heq with h1 _
          rw [h1]
        | cons b bs =>
          injection heq with h1 _
          subst h1
          rw [hl1 a (by simp)] at hm
          cases hm
    | false =>
      rw [findFirstMarked, if_neg (by simp [hm]), ih]
      constructor
      · rintro ⟨l1, l2, heq, hr, hl1⟩
        refine ⟨a :: l1, l2, by rw [heq]; rfl, hr, ?_⟩
        intro p hp
        rcases List.mem_cons.mp hp with rfl | hp
        · exact hm
        · exact hl1 p hp
      · rintro ⟨l1, l2, heq, hr, hl1⟩
        cases l1 with
        | nil =>
          injection heq with h1 _
          subst h1
          rw [hr] at hm
          cases hm
        | cons b bs =>
          injection heq with h1 h2
          exact ⟨bs, l2, h2, hr, fun p hp => hl1 p (by simp [hp])⟩

theorem findFirstMarked_eq_none (fs : String → Bool) (l : List String) :
    findFirstMarked fs l = none ↔ ∀ p ∈ l, hasMarker fs p = false := by
  induction l with
  | nil => simp [findFirstMarked]
  | cons a rest ih =>
    cases hm : hasMarker fs a with
    | true =>
      rw [findFirstMarked, if_pos hm]
      simp only [List.mem_cons]
      constructor
      · intro h; cases h
      · intro h
        rw [h a (Or.inl rfl)] at hm
        cases hm
    | false =>
      rw [findFirstMarked, if_neg (by simp [hm]), ih]
      constructor
      · intro h p hp
        rcases List.mem_cons.mp hp with rfl | hp
        · exact hm
        · exact h p hp
      · intro h p hp
        exact h p (by simp [hp])

/-- Claim C1: for every filesystem and environment state,
`isGitBashInstalled` returns the first candidate root, in declared order
(`C:\Program Files\Git`, then `C:\Program Files (x86)\Git`, then the
directory named by `GIT_INSTALL_ROOT`), whose marker file `git-bash.exe`
exists under it, and returns `none` when no candidate's marker exists;
when several candidates have the marker, the earliest in declared order
is returned (last conjunct exhibits this with all markers present). -/
theorem isGitBashInstalled_first_match (fs : String → Bool)
    (gitInstallRoot : Option String) :
    (∀ r, isGitBashInstalled fs gitInstallRoot = some r ↔
       ∃ l1 l2, gitBashPaths gitInstallRoot = l1 ++ r :: l2 ∧
         hasMarker fs r = true ∧ ∀ p ∈ l1, hasMarker fs p = false) ∧
    (isGitBashInstalled fs gitInstallRoot = none ↔
       ∀ p ∈ gitBashPaths gitInstallRoot, hasMarker fs p = false) ∧
    (∀ s, s ≠ "" → gitBashPaths (some s) =
       ["C:\\Program Files\\Git", "C:\\Program Files (x86)\\Git", s]) ∧
    isGitBashInstalled (fun _ => true) (some "D:\\Git") =
      some "C:\\Program Files\\Git" := by
  refine ⟨fun r => findFirstMarked_eq_some fs _ r,
          findFirstMarked_eq_none fs _, ?_, by decide⟩
  intro s hs
  simp +decide [gitBashPaths, hs]

theorem isGitBashInstalled_first_match_witness :
    isGitBashInstalled (fun _ => true) (some "D:\\Git") =
      some "C:\\Program Files\\Git" :=
  (isGitBashInstalled_first_match (fun _ => true) (some "D:\\Git")).2.2.2

/-- Claim C9: when `GIT_INSTALL_ROOT` is unset or empty, the
environment-derived candidate is filtered out and the two hardcoded
candidates are probed normally (the locator is a total function, so it
cannot throw). -/
theorem isGitBashInstalled_skips_unset_env (fs : String → Bool)
    (gitInstallRoot : Option String)
    (h : gitInstallRoot = none ∨ gitInstallRoot = some "") :
    gitBashPaths gitInstallRoot =
      ["C:\\Program Files\\Git", "C:\\Program Files (x86)\\Git"] ∧
    isGitBashInstalled fs gitInstallRoot = isGitBashInstalled fs none := by
  rcases h with rfl | rfl
  · exact ⟨by decide, rfl⟩
  · refine ⟨by decide, ?_⟩
    unfold isGitBashInstalled
    rw [show gitBashPaths (some "") = gitBashPaths none from by decide]

theorem isGitBashInstalled_skips_unset_env_witness :
    gitBashPaths (some "") =
      ["C:\\Program Files\\Git", "C:\\Program Files (x86)\\Git"] ∧
    isGitBashInstalled (fun _ => false) (some "") =
      isGitBashInstalled (fun _ => false) none :=
  isGitBashInstalled_skips_unset_env (fun _ => false) (some "") (Or.inr rfl)

/-- Claim C2: whenever the HTTP response status is anything other than
success (200), `downloadZsh` rejects with an error whose message reports
the received status code, even if a response body is present; no success
value is produced. -/
theorem downloadZsh_rejects_bad_status (cwd : String)
    (priorFile : Option (List Nat)) (status : Nat) (body : List Nat)
    (h : status ≠ 200) :
    (downloadZsh cwd priorFile (HttpOutcome.response status body)).1 =
      Except.error ("Failed to download file. HTTP Status Code: " ++
        toString status) := by
  simp [downloadZsh, h]

theorem downloadZsh_rejects_bad_status_witness :
    (downloadZsh "C:\\w" (some [1]) (HttpOutcome.response 404 [9, 9, 9])).1 =
      Except.error ("Failed to download file. HTTP Status Code: " ++
        toString 404) :=
  downloadZsh_rejects_bad_status "C:\\w" (some [1]) 404 [9, 9, 9] (by decide)

/-- Claim C3: `downloadZsh` resolves successfully iff the HTTP status is
success (200) and the downloaded file's size exceeds the 1 MiB
threshold; any completed transfer at or below the threshold rejects with
the distinct too-small error even though the status was success. -/
theorem downloadZsh_success_iff (cwd : String) (priorFile : Option (List Nat))
    (out : HttpOutcome) :
    ((∃ p, (downloadZsh cwd priorFile out).1 = Except.ok p) ↔
       ∃ body, out = HttpOutcome.response 200 body ∧
         body.length > sizeThreshold) ∧
    (∀ body, out = HttpOutcome.response 200 body →
       body.length ≤ sizeThreshold →
       (downloadZsh cwd priorFile out).1 =
         Except.error "Downloaded file is too small, download may have failed.") := by
  constructor
  · constructor
    · rintro ⟨p, hp⟩
      match out with
      | HttpOutcome.networkError m => simp [downloadZsh] at hp
      | HttpOutcome.response st body =>
        by_cases hst : st = 200
        · subst hst
          by_cases hlen : body.length > sizeThreshold
          · exact ⟨body, rfl, hlen⟩
          · simp [downloadZsh, hlen] at hp
        · simp [downloadZsh, hst] at hp
    · rintro ⟨body, rfl, hlen⟩
      exact ⟨downloadPath cwd, by simp [downloadZsh, hlen]⟩
  · rintro body rfl hlen
    simp [downloadZsh, Nat.not_lt.mpr hlen]

theorem downloadZsh_success_iff_witness :
    (∃ p, (downloadZsh "C:\\w" none
        (HttpOutcome.response 200 (List.replicate (sizeThreshold + 1) 0))).1 =
      Except.ok p) ∧
    (downloadZsh "C:\\w" none (HttpOutcome.response 200 [3, 3])).1 =
      Except.error "Downloaded file is too small, download may have failed." :=
  ⟨(downloadZsh_success_iff "C:\\w" none _).1.mpr
      ⟨List.replicate (sizeThreshold + 1) 0, rfl, by
        simp only [List.length_replicate]; omega⟩,
   (downloadZsh_success_iff "C:\\w" none _).2 [3, 3] rfl (by
      simp [sizeThreshold])⟩

/-- Claim C4: on a network-level error `downloadZsh` deletes the output
file at the fixed download path and surfaces the error; on a validation
failure after a completed transfer (non-success status or undersized
file) it rejects but leaves a file in place on disk. -/
theorem downloadZsh_cleanup (cwd : String) (priorFile : Option (List Nat))
    (out : HttpOutcome) :
    (∀ msg, out = HttpOutcome.networkError msg →
       downloadZsh cwd priorFile out = (Except.error msg, none)) ∧
    (∀ status body e, out = HttpOutcome.response status body →
       (downloadZsh cwd priorFile out).1 = Except.error e →
       ((downloadZsh cwd priorFile out).2).isSome = true) := by
  constructor
  · rintro msg rfl
    rfl
  · rintro status body e rfl _h
    by_cases hst : status = 200
    · subst hst
      by_cases hlen : body.length > sizeThreshold
      · simp [downloadZsh, hlen]
      · simp [downloadZsh, hlen]
    · simp [downloadZsh, hst]

theorem downloadZsh_cleanup_witness :
    downloadZsh "C:\\w" (some [1, 2]) (HttpOutcome.networkError "socket hang up") =
      (Except.error "socket hang up", none) ∧
    ((downloadZsh "C:\\w" (some [1, 2]) (HttpOutcome.response 404 [9])).2).isSome = true :=
  ⟨(downloadZsh_cleanup "C:\\w" (some [1, 2]) _).1 "socket hang up" rfl,
   (downloadZsh_cleanup "C:\\w" (some [1, 2]) _).2 404 [9]
     ("Failed to download file. HTTP Status Code: " ++ toString 404) rfl
     rfl⟩

/-- Claim C10: the artifact and extraction paths are fixed relative to
the cwd captured at module load by `path.resolve()`: whenever
`downloadZsh` resolves it resolves with exactly `<cwd>\zsh.tar.gz`, and
whenever `unpackZsh` resolves it resolves with exactly
`<cwd>\zsh-extract`, regardless of its `tarGzPath` argument or the
archive's contents. -/
theorem fixed_output_paths (cwd tarGzPath : String)
    (priorFile : Option (List Nat)) (out : HttpOutcome)
    (tarResult : Except String Unit) :
    (∀ p, (downloadZsh cwd priorFile out).1 = Except.ok p →
       p = pathJoin cwd "zsh.tar.gz") ∧
    (∀ p, unpackZsh cwd tarGzPath tarResult = Except.ok p →
       p = pathJoin cwd "zsh-extract") := by
  constructor
  · intro p hp
    match out with
    | HttpOutcome.networkError m => simp [downloadZsh] at hp
    | HttpOutcome.response st body =>
      by_cases hst : st = 200
      · subst hst
        by_cases hlen : body.length > sizeThreshold
        · simp [downloadZsh, hlen, downloadPath] at hp
          exact hp.symm
        · simp [downloadZsh, hlen] at hp
      · simp [downloadZsh, hst] at hp
  · intro p hp
    match tarResult with
    | Except.error e => simp [unpackZsh] at hp
    | Except.ok _ =>
      simp [unpackZsh, extractPath] at hp
      exact hp.symm

theorem fixed_output_paths_witness :
    downloadPath "C:\\w" = pathJoin "C:\\w" "zsh.tar.gz" ∧
    extractPath "C:\\w" = pathJoin "C:\\w" "zsh-extract" :=
  ⟨(fixed_output_paths "C:\\w" "D:\\elsewhere\\archive.tar.gz" none
      (HttpOutcome.response 200 (List.replicate (sizeThreshold + 1) 0))
      (Except.ok ())).1 (downloadPath "C:\\w")
      (by simp [downloadZsh]),
   (fixed_output_paths "C:\\w" "D:\\elsewhere\\archive.tar.gz" none
      (HttpOutcome.response 200 (List.replicate (sizeThreshold + 1) 0))
      (Except.ok ())).2 (extractPath "C:\\w")
      (by simp [unpackZsh])⟩

/-! ### Installer lemmas -/

theorem copySub_at (zsh : FSTree) (sub : String) (git : FSTree)
    (q : List String) :
    copySub zsh sub git ("usr" :: sub :: q) =
      (zsh (sub :: q)).elim (git ("usr" :: sub :: q)) some := by
  simp [copySub]

theorem copySub_other (zsh : FSTree) (sub : String) (git : FSTree)
    (a s : String) (q : List String) (h : ¬(a = "usr" ∧ s = sub)) :
    copySub zsh sub git (a :: s :: q) = git (a :: s :: q) := by
  simp [copySub, h]

theorem copySub_short (zsh : FSTree) (sub : String) (git : FSTree)
    (p : List String) (h : ∀ a s q, p ≠ a :: s :: q) :
    copySub zsh sub git p = git p := by
  match p with
  | [] => rfl
  | [a] => rfl
  | a :: s :: q => exact absurd rfl (h a s q)

theorem installZsh_at_bin (zsh d : FSTree) (q : List String) :
    installZsh zsh d ("usr" :: "bin" :: q) =
      (zsh ("bin" :: q)).elim (d ("usr" :: "bin" :: q)) some := by
  show copySub zsh "share" (copySub zsh "bin" d) ("usr" :: "bin" :: q) = _
  rw [copySub_other zsh "share" (copySub zsh "bin" d) "usr" "bin" q (by decide),
      copySub_at]

theorem installZsh_at_share (zsh d : FSTree) (q : List String) :
    installZsh zsh d ("usr" :: "share" :: q) =
      (zsh ("share" :: q)).elim (d ("usr" :: "share" :: q)) some := by
  show copySub zsh "share" (copySub zsh "bin" d) ("usr" :: "share" :: q) = _
  rw [copySub_at, copySub_other zsh "bin" d "usr" "share" q (by decide)]

theorem installZsh_frame (zsh d : FSTree) (p : List String)
    (h : ∀ q, p ≠ "usr" :: "bin" :: q ∧ p ≠ "usr" :: "share" :: q) :
    installZsh zsh d p = d p := by
  match p with
  | [] => rfl
  | [a] => rfl
  | a :: s :: q =>
    show copySub zsh "share" (copySub zsh "bin" d) (a :: s :: q) = _
    rw [copySub_other zsh "share" (copySub zsh "bin" d) a s q
          (fun hc => (h q).2 (by rw [hc.1, hc.2])),
        copySub_other zsh "bin" d a s q
          (fun hc => (h q).1 (by rw [hc.1, hc.2]))]

/-- Claim C6: `installZsh` copies the `bin` and `share` subtrees of the
extracted root into `usr` of the prerequisite root with merge semantics:
a destination file whose relative path also exists in the source ends
with the source's content, a destination file whose relative path is
absent from the source keeps its prior content (inside the copied
subtrees and everywhere else) — a merge, not a mirror. -/
theorem installZsh_merge (zsh git : FSTree) :
    (∀ sub q c, (sub = "bin" ∨ sub = "share") → zsh (sub :: q) = some c →
       installZsh zsh git ("usr" :: sub :: q) = some c) ∧
    (∀ sub q, (sub = "bin" ∨ sub = "share") → zsh (sub :: q) = none →
       installZsh zsh git ("usr" :: sub :: q) = git ("usr" :: sub :: q)) ∧
    (∀ s q, s ≠ "bin" → s ≠ "share" →
       installZsh zsh git ("usr" :: s :: q) = git ("usr" :: s :: q)) ∧
    (∀ p, (∀ s q, p ≠ "usr" :: s :: q) → installZsh zsh git p = git p) := by
  refine ⟨?_, ?_, ?_, ?_⟩
  · rintro sub q c (rfl | rfl) hz
    · rw [installZsh_at_bin, hz]; rfl
    · rw [installZsh_at_share, hz]; rfl
  · rintro sub q (rfl | rfl) hz
    · rw [installZsh_at_bin, hz]; rfl
    · rw [installZsh_at_share, hz]; rfl
  · intro s q hbin hshare
    apply installZsh_frame
    intro q'
    constructor
    · intro he
      injection he with h1 h2
      injection h2 with h3 _
      exact hbin h3
    · intro he
      injection he with h1 h2
      injection h2 with h3 _
      exact hshare h3
  · intro p hp
    apply installZsh_frame
    intro q'
    exact ⟨hp "bin" q', hp "share" q'⟩

/-- An extracted zsh tree with one file under `bin` and one under
`share`, for the installer witnesses. -/
def zshEx : FSTree := fun p =>
  if p = ["bin", "zsh.exe"] then some "ZSHBIN"
  else if p = ["share", "zsh", "help"] then some "ZSHHELP"
  else none

/-- A Git Bash tree that already has an old copy of one of the files
plus an unrelated file, for the installer witnesses. -/
def gitEx : FSTree := fun p =>
  if p = ["usr", "bin", "zsh.exe"] then some "OLD"
  else if p = ["usr", "bin", "bash.exe"] then some "BASH"
  else if p = ["etc", "profile"] then some "PROFILE"
  else none

theorem installZsh_merge_witness :
    installZsh zshEx gitEx ["usr", "bin", "zsh.exe"] = some "ZSHBIN" ∧
    installZsh zshEx gitEx ["usr", "bin", "bash.exe"] =
      gitEx ["usr", "bin", "bash.exe"] ∧
    installZsh zshEx gitEx ["usr", "lib", "x.dll"] =
      gitEx ["usr", "lib", "x.dll"] ∧
    installZsh zshEx gitEx ["etc", "profile"] = gitEx ["etc", "profile"] :=
  ⟨(installZsh_merge zshEx gitEx).1 "bin" ["zsh.exe"] "ZSHBIN"
      (Or.inl rfl) (by decide),
   (installZsh_merge zshEx gitEx).2.1 "bin" ["bash.exe"]
      (Or.inl rfl) (by decide),
   (installZsh_merge zshEx gitEx).2.2.1 "lib" ["x.dll"]
      (by decide) (by decide),
   (installZsh_merge zshEx gitEx).2.2.2 ["etc", "profile"]
      (by intro s q h; injection h with h1 _; exact absurd h1 (by decide))⟩

/-- Claim C7: the copy step is idempotent — running `installZsh` twice
with identical source and destination trees leaves the destination's
final content identical to running it once. -/
theorem installZsh_idempotent (zsh git : FSTree) :
    installZsh zsh (installZsh zsh git) = installZsh zsh git := by
  funext p
  by_cases hb : ∃ q, p = "usr" :: "bin" :: q
  · obtain ⟨q, rfl⟩ := hb
    simp only [installZsh_at_bin]
    cases zsh ("bin" :: q) <;> rfl
  · by_cases hs : ∃ q, p = "usr" :: "share" :: q
    · obtain ⟨q, rfl⟩ := hs
      simp only [installZsh_at_share]
      cases zsh ("share" :: q) <;> rfl
    · have h : ∀ q, p ≠ "usr" :: "bin" :: q ∧ p ≠ "usr" :: "share" :: q :=
        fun q => ⟨fun he => hb ⟨q, he⟩, fun he => hs ⟨q, he⟩⟩
      rw [installZsh_frame zsh (installZsh zsh git) p h,
          installZsh_frame zsh git p h]

/-- Claim C8: whenever the privilege probe fails, the run issues exactly
one relaunch invocation, that invocation's command embeds the original
command-line arguments, and the current invocation performs no download,
no extraction and no install. -/
theorem relaunch_when_not_admin (i : RunInput) (h : i.isAdmin = false) :
    (installZshOnWindows i).1 =
      [Step.log "Installing Zsh on Windows...",
       Step.log "Not running as admin. Attempting to relaunch as admin...",
       Step.relaunch (relaunchCmd i.scriptPath i.args)] ∧
    ((installZshOnWindows i).1.filter
        (fun s => match s with | Step.relaunch _ => true | _ => false)).length = 1 ∧
    Step.download ∉ (installZshOnWindows i).1 ∧
    Step.unpack ∉ (installZshOnWindows i).1 ∧
    Step.install ∉ (installZshOnWindows i).1 ∧
    relaunchCmd i.scriptPath i.args =
      ("powershell -Command \"Start-Process 'node' -ArgumentList '" ++
         i.scriptPath ++ " ") ++
        String.intercalate " " i.args ++ "' -Verb RunAs\"" := by
  have htrace : (installZshOnWindows i).1 =
      [Step.log "Installing Zsh on Windows...",
       Step.log "Not running as admin. Attempting to relaunch as admin...",
       Step.relaunch (relaunchCmd i.scriptPath i.args)] := by
    simp [installZshOnWindows, h]
  refine ⟨htrace, ?_, ?_, ?_, ?_, ?_⟩
  · rw [htrace]; rfl
  · rw [htrace]; simp
  · rw [htrace]; simp
  · rw [htrace]; simp
  · simp [relaunchCmd, String.append_assoc]

/-- A non-elevated invocation with two command-line arguments. -/
def exNotAdmin : RunInput :=
  { cwd := "C:\\w", isAdmin := false, scriptPath := "install.js",
    args := ["--force", "now"], fs := fun _ => true, gitInstallRoot := none,
    artifactPrior := none, http := HttpOutcome.networkError "n/a",
    tarResult := Except.ok () }

theorem relaunch_when_not_admin_witness :
    (installZshOnWindows exNotAdmin).1 =
      [Step.log "Installing Zsh on Windows...",
       Step.log "Not running as admin. Attempting to relaunch as admin...",
       Step.relaunch (relaunchCmd "install.js" ["--force", "now"])] :=
  (relaunch_when_not_admin exNotAdmin rfl).1

/-- Claim C5 (amended): when the download request returns HTTP 404, the
run logs the failure, performs no extraction step and no install step;
the artifact file at the fixed download path still exists afterwards but
has been truncated to empty by the write-stream creation, so a previously
downloaded artifact's content does NOT survive. -/
theorem http404_logs_and_skips (i : RunInput) (body : List Nat)
    (hadm : i.isAdmin = true)
    (hhttp : i.http = HttpOutcome.response 404 body)
    (p : String)
    (hgit : isGitBashInstalled i.fs i.gitInstallRoot = some p) :
    Step.unpack ∉ (installZshOnWindows i).1 ∧
    Step.install ∉ (installZshOnWindows i).1 ∧
    Step.log ("An error occurred: Failed to download file. HTTP Status Code: "
        ++ toString 404)
      ∈ (installZshOnWindows i).1 ∧
    (installZshOnWindows i).2 = some [] := by
  have htrace : installZshOnWindows i =
      ([Step.log "Installing Zsh on Windows...",
        Step.log ("Git Bash found at: " ++ p), Step.download,
        Step.log ("An error occurred: Failed to download file. HTTP Status Code: "
          ++ toString 404)],
       some []) := by
    simp [installZshOnWindows, hadm, hgit, hhttp, downloadZsh,
      ← String.append_assoc]
  rw [htrace]
  refine ⟨by simp, by simp, by simp, rfl⟩

/-- An elevated invocation against a 404 response, with Git Bash present
at the first hardcoded candidate and a previously downloaded artifact on
disk. -/
def ex404 : RunInput :=
  { cwd := "C:\\w", isAdmin := true, scriptPath := "install.js", args := [],
    fs := fun s => s == "C:\\Program Files\\Git\\git-bash.exe",
    gitInstallRoot := none, artifactPrior := some [7, 7],
    http := HttpOutcome.response 404 [], tarResult := Except.ok () }

theorem http404_logs_and_skips_witness :
    Step.unpack ∉ (installZshOnWindows ex404).1 ∧
    Step.install ∉ (installZshOnWindows ex404).1 ∧
    Step.log ("An error occurred: Failed to download file. HTTP Status Code: "
        ++ toString 404)
      ∈ (installZshOnWindows ex404).1 ∧
    (installZshOnWindows ex404).2 = some [] :=
  http404_logs_and_skips ex404 [] rfl rfl "C:\\Program Files\\Git" (by decide)

/-- Claim C5, counterexample to the claim as stated: on this 404 run a
previously downloaded artifact (content `[7, 7]`) is NOT left untouched —
after the run the file at the fixed download path is empty, because
`createWriteStream` truncates it before the status check. -/
theorem http404_artifact_touched_cex :
    ex404.http = HttpOutcome.response 404 [] ∧
    ex404.artifactPrior = some [7, 7] ∧
    (installZshOnWindows ex404).2 ≠ ex404.artifactPrior := by
  refine ⟨rfl, rfl, ?_⟩
  intro h
  rw [(http404_logs_and_skips ex404 [] rfl rfl "C:\\Program Files\\Git"
        (by decide)).2.2.2] at h
  cases h
